import Mathlib

/-
Verification of the sf-ui-automation plugin of salesforce-devops-jenkins.

Shallow embedding of:
  * plugins/sf-ui-automation/src/commands/ui/setup/apply.ts (SetupApply.run)
  * plugins/sf-ui-automation/src/lib/browser.ts (BrowserManager, SalesforceUI)
  * plugins/sf-ui-automation/src/lib/setup-automations.ts (SetupAutomations)

Browser/DOM effects are modelled by explicit environments: each dispatched
automation call gets an injected outcome (success or an error message), the
DOM state relevant to a primitive (checkbox checked state, toast text,
login markers) is an explicit input, and the sequence of UI interactions a
method performs is returned as an explicit trace.
-/

namespace SfUiAuto

/-- Options of the sessionSettings section of SetupConfig (apply.ts lines 10-16). -/
structure SessionSettingsOptions where
  sessionTimeout : Option Nat := none
  forceLogoutOnSessionTimeout : Option Bool := none
  lockSessionsToIp : Option Bool := none
  requireHttpOnly : Option Bool := none
  requireSecureConnections : Option Bool := none
  deriving DecidableEq

/-- One entry of the sharingSettings list (apply.ts lines 17-22); the two
access fields are TS string-literal unions, kept as strings. -/
structure SharingSetting where
  objectName : String
  internalAccess : String
  externalAccess : Option String := none
  grantAccessUsingHierarchies : Option Bool := none
  deriving DecidableEq

/-- Options of the einsteinActivityCapture section (apply.ts lines 23-27). -/
structure EacOptions where
  enabled : Bool
  captureEmails : Option Bool := none
  captureEvents : Option Bool := none
  deriving DecidableEq

/-- Options of the omniChannel section (apply.ts lines 28-32). -/
structure OmniOptions where
  enabled : Bool
  enableSkillBasedRouting : Option Bool := none
  enableExternalRouting : Option Bool := none
  deriving DecidableEq

/-- One entry of the flows list (apply.ts lines 33-36). -/
structure FlowEntry where
  flowApiName : String
  activate : Bool
  deriving DecidableEq

/-- One entry of the orgWideEmails list (apply.ts lines 37-41). -/
structure OrgWideEmail where
  displayName : String
  emailAddress : String
  allowAllProfiles : Bool
  deriving DecidableEq

/-- The parsed SetupConfig document (apply.ts lines 9-42): each section is
optional; a JS object field that is absent is `none`. -/
structure SetupConfig where
  sessionSettings : Option SessionSettingsOptions := none
  sharingSettings : Option (List SharingSetting) := none
  einsteinActivityCapture : Option EacOptions := none
  omniChannel : Option OmniOptions := none
  flows : Option (List FlowEntry) := none
  orgWideEmails : Option (List OrgWideEmail) := none
  deriving DecidableEq

/-- One configuration operation dispatched by SetupApply.run, tagged with
its kind and carrying the options passed to the SetupAutomations method. -/
inductive Op where
  | session (o : SessionSettingsOptions)
  | sharing (o : SharingSetting)
  | eac (o : EacOptions)
  | omni (o : OmniOptions)
  | flow (o : FlowEntry)
  | owe (o : OrgWideEmail)
  deriving DecidableEq

/-- The operations of a batch in the order SetupApply.run dispatches them
(apply.ts lines 119-225): the six if-blocks run in fixed source order —
sessionSettings, sharingSettings (document order), einsteinActivityCapture,
omniChannel, flows (document order), orgWideEmails (document order). -/
def opsOf (c : SetupConfig) : List Op :=
  (c.sessionSettings.toList.map Op.session)
    ++ ((c.sharingSettings.getD []).map Op.sharing)
    ++ (c.einsteinActivityCapture.toList.map Op.eac)
    ++ (c.omniChannel.toList.map Op.omni)
    ++ ((c.flows.getD []).map Op.flow)
    ++ ((c.orgWideEmails.getD []).map Op.owe)

/-- The label pushed onto `applied` when an operation completes
(apply.ts lines 125, 143, 161, 178, 196, 215). -/
def appliedLabel : Op → String
  | .session _ => "Session Settings"
  | .sharing o => "Sharing: " ++ o.objectName
  | .eac _ => "Einstein Activity Capture"
  | .omni _ => "Omni-Channel"
  | .flow o => "Flow: " ++ o.flowApiName
  | .owe o => "Org-Wide Email: " ++ o.displayName

/-- The entry pushed onto `failed` when an operation raises, built from the
per-block label and the error message (apply.ts lines 129, 147, 165, 182,
200, 219). -/
def failedLabel : Op → String → String
  | .session _, m => "Session Settings: " ++ m
  | .sharing o, m => "Sharing " ++ o.objectName ++ ": " ++ m
  | .eac _, m => "Einstein Activity Capture: " ++ m
  | .omni _, m => "Omni-Channel: " ++ m
  | .flow o, m => "Flow " ++ o.flowApiName ++ ": " ++ m
  | .owe o, m => "Org-Wide Email " ++ o.displayName ++ ": " ++ m

/-- Mutable state of a batch run: the `applied` and `failed` arrays of
SetupApply.run plus the trace of operations attempted so far. -/
structure BatchState where
  applied : List String
  failed : List String
  attempted : List Op
  deriving DecidableEq

/-- Each automation call is fallible; the environment assigns the outcome
of the i-th dispatched call: `none` means it completes, `some m` means it
raises an error whose message is `m`. -/
def OpEnv := Nat → Option String

/-- The per-operation try/catch loop of SetupApply.run (apply.ts lines
119-225): on success push the applied label; on error push the failed
entry, and when continueOnError is false re-throw (returned as `some m`),
attempting nothing further. -/
def runOps (cont : Bool) (env : OpEnv) : List Op → Nat → BatchState →
    BatchState × Option String
  | [], _, st => (st, none)
  | op :: rest, i, st =>
    match env i with
    | none =>
        runOps cont env rest (i + 1)
          { applied := st.applied ++ [appliedLabel op]
            failed := st.failed
            attempted := st.attempted ++ [op] }
    | some m =>
        let st2 : BatchState :=
          { applied := st.applied
            failed := st.failed ++ [failedLabel op m]
            attempted := st.attempted ++ [op] }
        if cont then runOps cont env rest (i + 1) st2 else (st2, some m)

/-- Environment of BrowserManager.connect (browser.ts lines 45-99): the
credentials read from the org connection and which of the two post-login
DOM markers are present after navigating to the frontdoor URL. -/
structure ConnectEnv where
  instanceUrl : Option String
  accessToken : Option String
  sldsGlobalHeaderPresent : Bool
  phHeaderLogoImagePresent : Bool
  deriving DecidableEq

/-- Truthiness of a JS string-or-undefined value: undefined/null and the
empty string are falsy (`!instanceUrl || !accessToken`, browser.ts line 50). -/
def jsTruthy : Option String → Bool
  | none => false
  | some s => !(s == "")

/-- Result of BrowserManager.connect: the new value of the private
`browser` field (the browser is launched before the login check, browser.ts
line 67) and either the session or the thrown error message. -/
structure ConnectResult where
  browser : Option Unit
  outcome : Except String Unit

/-- BrowserManager.connect (browser.ts lines 45-99): validate credentials,
launch the browser, navigate to frontdoor and check the two login markers;
throw when both are absent. -/
def connect (e : ConnectEnv) (browser0 : Option Unit) : ConnectResult :=
  if !(jsTruthy e.instanceUrl) || !(jsTruthy e.accessToken) then
    { browser := browser0
      outcome := .error "Unable to get Salesforce session. Please authenticate first." }
  else if e.sldsGlobalHeaderPresent || e.phHeaderLogoImagePresent then
    { browser := some (), outcome := .ok () }
  else
    { browser := some (), outcome := .error "Failed to authenticate to Salesforce" }

/-- Result of BrowserManager.disconnect: the new `browser` field, whether
`browser.close()` was invoked, and the error it threw, if any. -/
structure DisconnectResult where
  browser : Option Unit
  closeCalled : Bool
  err : Option String
  deriving DecidableEq

/-- BrowserManager.disconnect (browser.ts lines 172-179): when a browser is
present, await close() and null the fields; there is no try/catch, so a
close() failure propagates and the fields are not nulled. With no browser
it does nothing. `closeErr` injects the outcome of close(). -/
def disconnectFn (closeErr : Option String) (browser0 : Option Unit) :
    DisconnectResult :=
  match browser0 with
  | none => { browser := none, closeCalled := false, err := none }
  | some _ =>
    match closeErr with
    | none => { browser := none, closeCalled := true, err := none }
    | some e => { browser := some (), closeCalled := true, err := some e }

/-- The structured value returned by SetupApply.run (apply.ts lines 44-49
and 240-245). -/
structure ApplySetupResult where
  success : Bool
  message : String
  applied : List String
  failed : List String
  deriving DecidableEq

/-- Environment of one whole SetupApply.run invocation: the connect
environment, the outcome of each dispatched automation call, and the
outcome of browser.close() in the finally block. -/
structure RunEnv where
  conn : ConnectEnv
  opErr : OpEnv
  closeErr : Option String

/-- Observable outcome of one SetupApply.run invocation: the returned
value or the propagated error, the final applied/failed arrays, the trace
of attempted operations, and resource-release accounting. -/
structure RunOutcome where
  result : Except String ApplySetupResult
  applied : List String
  failed : List String
  attempted : List Op
  disconnectCalls : Nat
  closeCalls : Nat

/-- JS finally semantics: an error thrown while disconnecting in the
finally block replaces the pending return value or pending error. -/
def mergeFinally (primary : Except String ApplySetupResult)
    (d : DisconnectResult) : Except String ApplySetupResult :=
  match d.err with
  | some e => .error e
  | none => primary

/-- SetupApply.run (apply.ts lines 104-253): connect, dispatch the batch
in fixed order with the per-operation failure policy, build the result,
catch any propagated error as `this.error("Configuration failed: " + msg)`
(which re-throws), and disconnect exactly once in the finally block. -/
def run (cfg : SetupConfig) (cont : Bool) (env : RunEnv) : RunOutcome :=
  let c := connect env.conn none
  match c.outcome with
  | .error msg =>
    let d := disconnectFn env.closeErr c.browser
    { result := mergeFinally (.error ("Configuration failed: " ++ msg)) d
      applied := []
      failed := []
      attempted := []
      disconnectCalls := 1
      closeCalls := if d.closeCalled then 1 else 0 }
  | .ok _ =>
    let r := runOps cont env.opErr (opsOf cfg) 0 ⟨[], [], []⟩
    let st := r.1
    let primary : Except String ApplySetupResult :=
      match r.2 with
      | some m => .error ("Configuration failed: " ++ m)
      | none =>
        .ok { success := st.failed.length == 0
              message := "Applied " ++ toString st.applied.length
                ++ " settings, " ++ toString st.failed.length ++ " failed"
              applied := st.applied
              failed := st.failed }
    let d := disconnectFn env.closeErr c.browser
    { result := mergeFinally primary d
      applied := st.applied
      failed := st.failed
      attempted := st.attempted
      disconnectCalls := 1
      closeCalls := if d.closeCalled then 1 else 0 }

/-! SalesforceUI primitives (browser.ts lines 184-251). The page is
modelled by the DOM state each primitive consults. -/

/-- Result of SalesforceUI.setCheckbox: the checked state of the control
after the call and the number of click interactions performed. -/
structure SetCheckboxResult where
  checked : Bool
  clicks : Nat
  deriving DecidableEq

/-- SalesforceUI.setCheckbox (browser.ts lines 207-214): wait for the
control (`none` means it never appears and the wait times out), read its
checked state, and click — which toggles a checkbox — only when it differs
from the desired state. -/
def setCheckbox (control : Option Bool) (checked : Bool) :
    Except String SetCheckboxResult :=
  match control with
  | none => .error "TimeoutError: waiting for selector failed"
  | some isChecked =>
    if isChecked != checked then .ok { checked := !isChecked, clicks := 1 }
    else .ok { checked := isChecked, clicks := 0 }

/-- Containment of `needle` as a contiguous substring of `hay`, the
behaviour of JS String.prototype.includes used by waitForToast. -/
def hasSubstr (hay needle : List Char) : Bool :=
  match hay with
  | [] => needle.isEmpty
  | _ :: t => needle.isPrefixOf hay || hasSubstr t needle

/-- SalesforceUI.waitForToast (browser.ts lines 227-238): wait for a
notification element (`none` means none appears within the hard timeout),
read its text; when an expected message is supplied (JS-truthy, so a
non-empty string) and the text does not include it, throw; otherwise
return the text. -/
def waitForToast (toast : Option String) (expectedMessage : Option String) :
    Except String String :=
  match toast with
  | none => .error "TimeoutError: waiting for selector failed"
  | some message =>
    match expectedMessage with
    | some e =>
      if e != "" && !(hasSubstr message.toList e.toList) then
        .error ("Expected toast \"" ++ e ++ "\" but got \"" ++ message ++ "\"")
      else .ok message
    | none => .ok message

/-! SetupAutomations methods, modelled as the sequence of navigation and
UI interactions they issue when every step succeeds
(setup-automations.ts). -/

/-- One UI interaction issued by a SetupAutomations method. -/
inductive UIAction where
  | navigateToSetup (path : String)
  | getSetupIframe
  | setCheckboxSel (selector : String) (checked : Bool)
  | clickButton (label : String)
  | setInput (selector : String) (value : String)
  | selectOption (selector : String) (value : String)
  | waitForToastAction
  deriving DecidableEq

/-- SetupAutomations.configureEinsteinActivityCapture (setup-automations.ts
lines 269-307): navigate, resolve the setup iframe, set the main toggle to
options.enabled, and only when options.enabled is true set each provided
sub-option checkbox; then Save and await the toast. -/
def configureEinsteinActivityCapture (options : EacOptions) : List UIAction :=
  [UIAction.navigateToSetup "ActivitySyncEngineSettings", UIAction.getSetupIframe,
   UIAction.setCheckboxSel "input[type=\"checkbox\"][id*=\"activityCapture\"]" options.enabled]
    ++ (if options.enabled then
          (match options.captureEmails with
           | some b => [UIAction.setCheckboxSel "input[type=\"checkbox\"][id*=\"emailCapture\"]" b]
           | none => [])
            ++ (match options.captureEvents with
                | some b => [UIAction.setCheckboxSel "input[type=\"checkbox\"][id*=\"eventCapture\"]" b]
                | none => [])
        else [])
    ++ [UIAction.clickButton "Save", UIAction.waitForToastAction]

/-- SetupAutomations.configureOmniChannel (setup-automations.ts lines
426-466): navigate, resolve the setup iframe, set the main toggle to
options.enabled, and only when options.enabled is true set each provided
routing sub-option checkbox; then Save and await the toast. -/
def configureOmniChannel (options : OmniOptions) : List UIAction :=
  [UIAction.navigateToSetup "OmniChannelSettings", UIAction.getSetupIframe,
   UIAction.setCheckboxSel "input[type=\"checkbox\"][id*=\"enableOmni\"]" options.enabled]
    ++ (if options.enabled then
          (match options.enableSkillBasedRouting with
           | some b => [UIAction.setCheckboxSel "input[type=\"checkbox\"][id*=\"skillBased\"]" b]
           | none => [])
            ++ (match options.enableExternalRouting with
                | some b => [UIAction.setCheckboxSel "input[type=\"checkbox\"][id*=\"externalRouting\"]" b]
                | none => [])
        else [])
    ++ [UIAction.clickButton "Save", UIAction.waitForToastAction]

/-- The selector of a setCheckbox action, `none` for other actions. -/
def checkboxSelectorOf : UIAction → Option String
  | .setCheckboxSel sel _ => some sel
  | _ => none

/-! The configuration file as a JSON document whose top-level sections may
appear in any order. JSON.parse (apply.ts line 98) turns the document into
an object: sections are looked up by name, and with duplicate keys the
last occurrence wins. -/

/-- One top-level section of the configuration document. -/
inductive RawSection where
  | sessionSettings (o : SessionSettingsOptions)
  | sharingSettings (l : List SharingSetting)
  | einsteinActivityCapture (o : EacOptions)
  | omniChannel (o : OmniOptions)
  | flows (l : List FlowEntry)
  | orgWideEmails (l : List OrgWideEmail)
  deriving DecidableEq

/-- The JSON key of a section. -/
def sectionKey : RawSection → String
  | .sessionSettings _ => "sessionSettings"
  | .sharingSettings _ => "sharingSettings"
  | .einsteinActivityCapture _ => "einsteinActivityCapture"
  | .omniChannel _ => "omniChannel"
  | .flows _ => "flows"
  | .orgWideEmails _ => "orgWideEmails"

/-- Value of the last section matched by the extractor `f`, reflecting
JSON.parse duplicate-key behaviour (the last occurrence wins). -/
def lastVal {α : Type} (f : RawSection → Option α) (doc : List RawSection) :
    Option α :=
  doc.reverse.findSome? f

/-- JSON.parse of the configuration document (apply.ts line 98): each
field of the resulting SetupConfig is the value of the section with that
key, by-name lookup independent of where the section sits in the document. -/
def parseConfig (doc : List RawSection) : SetupConfig where
  sessionSettings :=
    lastVal (fun s => match s with | .sessionSettings o => some o | _ => none) doc
  sharingSettings :=
    lastVal (fun s => match s with | .sharingSettings l => some l | _ => none) doc
  einsteinActivityCapture :=
    lastVal (fun s => match s with | .einsteinActivityCapture o => some o | _ => none) doc
  omniChannel :=
    lastVal (fun s => match s with | .omniChannel o => some o | _ => none) doc
  flows :=
    lastVal (fun s => match s with | .flows l => some l | _ => none) doc
  orgWideEmails :=
    lastVal (fun s => match s with | .orgWideEmails l => some l | _ => none) doc

/-- The kind tag of an operation, used to state category ordering. -/
inductive OpCat where
  | session | sharing | eac | omni | flow | owe
  deriving DecidableEq

/-- Category of an operation. -/
def catOf : Op → OpCat
  | .session _ => .session
  | .sharing _ => .sharing
  | .eac _ => .eac
  | .omni _ => .omni
  | .flow _ => .flow
  | .owe _ => .owe

/-- Position of a category in the fixed execution order of
SetupApply.run. -/
def catRank : OpCat → Nat
  | .session => 0
  | .sharing => 1
  | .eac => 2
  | .omni => 3
  | .flow => 4
  | .owe => 5

/-- Labels of the operations that complete when the environment `env`
drives the ops starting at call index `i`: the `applied` entries a batch
run accumulates. -/
def appliedOf (env : OpEnv) : List Op → Nat → List String
  | [], _ => []
  | op :: rest, i =>
    match env i with
    | none => appliedLabel op :: appliedOf env rest (i + 1)
    | some _ => appliedOf env rest (i + 1)

/-- Failure entries of the operations that raise when the environment
`env` drives the ops starting at call index `i`: the `failed` entries a
continue-mode batch run accumulates. -/
def failedOf (env : OpEnv) : List Op → Nat → List String
  | [], _ => []
  | op :: rest, i =>
    match env i with
    | none => failedOf env rest (i + 1)
    | some m => failedLabel op m :: failedOf env rest (i + 1)

/-! Concrete sample inputs used to instantiate the theorems below. -/

/-- A sharing entry for the Account object. -/
def accountSharing : SharingSetting :=
  { objectName := "Account", internalAccess := "Private" }

/-- Flow entry activating flow A. -/
def flowA : FlowEntry := { flowApiName := "A", activate := true }

/-- Flow entry deactivating flow B. -/
def flowB : FlowEntry := { flowApiName := "B", activate := false }

/-- A sample batch: session settings plus two flows (the batch of the
testable-properties scenarios of the spec). -/
def sampleCfg : SetupConfig :=
  { sessionSettings := some { sessionTimeout := some 60 }
    flows := some [flowA, flowB] }

/-- A connect environment with usable credentials and the Lightning
post-login marker present. -/
def goodConn : ConnectEnv :=
  { instanceUrl := some "https://example.my.salesforce.com"
    accessToken := some "00Dtoken"
    sldsGlobalHeaderPresent := true
    phHeaderLogoImagePresent := false }

/-- A run environment where every automation call succeeds and the
browser closes cleanly. -/
def envAllOk : RunEnv :=
  { conn := goodConn, opErr := fun _ => none, closeErr := none }

/-- A run environment where exactly the k-th automation call fails with
message m. -/
def envFailAt (k : Nat) (m : String) : RunEnv :=
  { conn := goodConn
    opErr := fun i => if i = k then some m else none
    closeErr := none }

/-- The sample batch as a document with its sections in flows, sharing,
session order. -/
def docA : List RawSection :=
  [RawSection.flows [flowA, flowB],
   RawSection.sharingSettings [accountSharing],
   RawSection.sessionSettings { sessionTimeout := some 60 }]

/-- The same document with its sections in session, sharing, flows order. -/
def docB : List RawSection :=
  [RawSection.sessionSettings { sessionTimeout := some 60 },
   RawSection.sharingSettings [accountSharing],
   RawSection.flows [flowA, flowB]]

/-- A connect environment whose org connection carries no instance URL. -/
def noUrlConn : ConnectEnv :=
  { instanceUrl := none
    accessToken := some "00Dtoken"
    sldsGlobalHeaderPresent := true
    phHeaderLogoImagePresent := false }

/-- A connect environment with credentials but neither post-login marker. -/
def noMarkerConn : ConnectEnv :=
  { instanceUrl := some "https://example.my.salesforce.com"
    accessToken := some "00Dtoken"
    sldsGlobalHeaderPresent := false
    phHeaderLogoImagePresent := false }

/-- A run environment whose connect fails on the missing instance URL. -/
def envNoUrl : RunEnv :=
  { conn := noUrlConn, opErr := fun _ => none, closeErr := none }

/-- A run environment where every automation call succeeds but closing
the browser fails. -/
def envCloseFail : RunEnv :=
  { conn := goodConn
    opErr := fun _ => none
    closeErr := some "Protocol error: Connection closed." }

/-! Helper lemmas. -/

/-- Continue-mode batch loops attempt every operation, never re-throw,
and accumulate exactly the applied and failed entries of the environment. -/
theorem runOps_cont (env : OpEnv) (ops : List Op) :
    ∀ (i : Nat) (st : BatchState),
    runOps true env ops i st =
      ({ applied := st.applied ++ appliedOf env ops i
         failed := st.failed ++ failedOf env ops i
         attempted := st.attempted ++ ops }, none) := by
  induction ops with
  | nil => intro i st; simp [runOps, appliedOf, failedOf]
  | cons op rest ih =>
    intro i st
    cases h : env i with
    | none => simp [runOps, appliedOf, failedOf, h, ih]
    | some m => simp [runOps, appliedOf, failedOf, h, ih]

/-- Disconnecting with a cleanly closing browser never raises. -/
theorem disconnectFn_clean_err (b : Option Unit) :
    (disconnectFn none b).err = none := by
  cases b <;> rfl

/-- A finally block whose disconnect raised nothing keeps the pending
outcome. -/
theorem mergeFinally_of_err_none (p : Except String ApplySetupResult)
    (d : DisconnectResult) (h : d.err = none) : mergeFinally p d = p := by
  simp [mergeFinally, h]

/-- A run whose connect succeeds and whose browser closes cleanly is the
batch loop: its observable fields are the loop state, and its result is
the re-thrown error or the assembled ApplySetupResult. -/
theorem run_connect_ok (cfg : SetupConfig) (cont : Bool) (env : RunEnv)
    (hconn : (connect env.conn none).outcome = .ok ())
    (hclose : env.closeErr = none) :
    (run cfg cont env).attempted =
      (runOps cont env.opErr (opsOf cfg) 0 ⟨[], [], []⟩).1.attempted ∧
    (run cfg cont env).applied =
      (runOps cont env.opErr (opsOf cfg) 0 ⟨[], [], []⟩).1.applied ∧
    (run cfg cont env).failed =
      (runOps cont env.opErr (opsOf cfg) 0 ⟨[], [], []⟩).1.failed ∧
    (run cfg cont env).result =
      (match runOps cont env.opErr (opsOf cfg) 0 ⟨[], [], []⟩ with
       | (_, some m) => Except.error ("Configuration failed: " ++ m)
       | (st, none) =>
         Except.ok { success := st.failed.length == 0
                     message := "Applied " ++ toString st.applied.length
                       ++ " settings, " ++ toString st.failed.length ++ " failed"
                     applied := st.applied
                     failed := st.failed }) := by
  cases hc : connect env.conn none with
  | mk br out =>
    rw [hc] at hconn
    dsimp only at hconn
    subst hconn
    unfold run
    rw [hc, hclose]
    cases hr : runOps cont env.opErr (opsOf cfg) 0 ⟨[], [], []⟩ with
    | mk st thrown =>
      cases thrown <;> cases br <;>
        simp [mergeFinally, disconnectFn]

/-- C1: for every batch run with continueOnError = true, every operation
present in the batch is attempted exactly once regardless of how many
earlier operations fail; no per-operation error propagates to the caller
(the run returns a result), the accumulated failed list in the returned
BatchResult being the sole error signal, and the count of attempted
operations equals the total operation count of the batch. -/
theorem C1_continue_attempts_all (cfg : SetupConfig) (env : RunEnv)
    (hconn : (connect env.conn none).outcome = .ok ())
    (hclose : env.closeErr = none) :
    (run cfg true env).attempted = opsOf cfg ∧
    (run cfg true env).attempted.length = (opsOf cfg).length ∧
    ∃ res, (run cfg true env).result = Except.ok res ∧
      res.applied = appliedOf env.opErr (opsOf cfg) 0 ∧
      res.failed = failedOf env.opErr (opsOf cfg) 0 := by
  obtain ⟨ha, -, -, hres⟩ := run_connect_ok cfg true env hconn hclose
  rw [runOps_cont] at ha hres
  simp only [List.nil_append] at ha hres
  exact ⟨ha, by rw [ha], ⟨_, hres, rfl, rfl⟩⟩

/-- Witness for C1 at the sample batch with its second operation failing. -/
theorem C1_continue_attempts_all_witness :
    (run sampleCfg true (envFailAt 1 "boom")).attempted = opsOf sampleCfg ∧
    (run sampleCfg true (envFailAt 1 "boom")).attempted.length =
      (opsOf sampleCfg).length ∧
    ∃ res, (run sampleCfg true (envFailAt 1 "boom")).result = Except.ok res ∧
      res.applied = appliedOf (envFailAt 1 "boom").opErr (opsOf sampleCfg) 0 ∧
      res.failed = failedOf (envFailAt 1 "boom").opErr (opsOf sampleCfg) 0 :=
  C1_continue_attempts_all sampleCfg (envFailAt 1 "boom") rfl rfl

/-- Abort-mode batch loops stop at the first failing operation: the
operations before it are applied, the failing one is recorded and
re-thrown, and nothing further is attempted. -/
theorem runOps_abort (env : OpEnv) (m : String) (ops : List Op) :
    ∀ (k i : Nat) (st : BatchState) (hk : k < ops.length),
    env (i + k) = some m → (∀ j, j < k → env (i + j) = none) →
    runOps false env ops i st =
      ({ applied := st.applied ++ (ops.take k).map appliedLabel
         failed := st.failed ++ [failedLabel (ops.get ⟨k, hk⟩) m]
         attempted := st.attempted ++ ops.take (k + 1) }, some m) := by
  induction ops with
  | nil => intro k i st hk; exact absurd hk (by simp)
  | cons op rest ih =>
    intro k i st hk hfail hok
    cases k with
    | zero =>
      have h0 : env i = some m := by simpa using hfail
      simp [runOps, h0]
    | succ k2 =>
      have h0 : env i = none := by simpa using hok 0 (Nat.succ_pos k2)
      have hfail2 : env ((i + 1) + k2) = some m := by
        have he : i + (k2 + 1) = (i + 1) + k2 := by omega
        rw [← he]; exact hfail
      have hok2 : ∀ j, j < k2 → env ((i + 1) + j) = none := by
        intro j hj
        have he : (i + 1) + j = i + (j + 1) := by omega
        rw [he]; exact hok (j + 1) (by omega)
      have hk2 : k2 < rest.length := by simpa using Nat.lt_of_succ_lt_succ hk
      have hstep : runOps false env (op :: rest) i st =
          runOps false env rest (i + 1)
            { applied := st.applied ++ [appliedLabel op]
              failed := st.failed
              attempted := st.attempted ++ [op] } := by
        simp [runOps, h0]
      rw [hstep, ih k2 (i + 1) _ hk2 hfail2 hok2]
      simp [List.append_assoc]

/-- C2: for every batch run with continueOnError = false, the first
operation failure aborts the batch immediately: the error propagates to
the caller, the count of attempted operations equals the index of the
first failure plus one, no later operation is attempted, and operations
already applied remain in the applied list. -/
theorem C2_abort_on_first_failure (cfg : SetupConfig) (env : RunEnv)
    (k : Nat) (m : String)
    (hconn : (connect env.conn none).outcome = .ok ())
    (hclose : env.closeErr = none)
    (hk : k < (opsOf cfg).length)
    (hfail : env.opErr k = some m)
    (hok : ∀ j, j < k → env.opErr j = none) :
    (run cfg false env).result = Except.error ("Configuration failed: " ++ m) ∧
    (run cfg false env).attempted = (opsOf cfg).take (k + 1) ∧
    (run cfg false env).attempted.length = k + 1 ∧
    (run cfg false env).applied = ((opsOf cfg).take k).map appliedLabel := by
  obtain ⟨ha, hap, -, hres⟩ := run_connect_ok cfg false env hconn hclose
  rw [runOps_abort env.opErr m (opsOf cfg) k 0 ⟨[], [], []⟩ hk
    (by simpa using hfail) (by intro j hj; simpa using hok j hj)] at ha hap hres
  simp only [List.nil_append] at ha hap hres
  refine ⟨hres, ha, ?_, hap⟩
  rw [ha]
  simp [List.length_take]
  omega

/-- Witness for C2 at the sample batch: the second operation (flow A)
fails, so exactly two operations are attempted and only the session
settings are applied. -/
theorem C2_abort_on_first_failure_witness :
    (run sampleCfg false (envFailAt 1 "boom")).result =
      Except.error ("Configuration failed: " ++ "boom") ∧
    (run sampleCfg false (envFailAt 1 "boom")).attempted =
      (opsOf sampleCfg).take (1 + 1) ∧
    (run sampleCfg false (envFailAt 1 "boom")).attempted.length = 1 + 1 ∧
    (run sampleCfg false (envFailAt 1 "boom")).applied =
      ((opsOf sampleCfg).take 1).map appliedLabel :=
  C2_abort_on_first_failure sampleCfg (envFailAt 1 "boom") 1 "boom" rfl rfl
    (by decide)
    rfl
    (by intro j hj
        have hj0 : j = 0 := by omega
        subst hj0
        rfl)

/-- findSome? is the head of the filterMap. -/
theorem findSome?_eq_head?_filterMap {α β : Type} (f : α → Option β)
    (l : List α) : l.findSome? f = (l.filterMap f).head? :=
  (List.filterMap_head? f l).symm

/-- An extractor that only fires on sections of one key fires at most once
on a document with no duplicate keys. -/
theorem filterMap_key_length_le_one {α : Type} (f : RawSection → Option α)
    (key : String) (hf : ∀ s, (f s).isSome → sectionKey s = key) :
    ∀ doc : List RawSection, (doc.map sectionKey).Nodup →
      (doc.filterMap f).length ≤ 1 := by
  intro doc
  induction doc with
  | nil => intro _; simp
  | cons a t ih =>
    intro hnd
    rw [List.map_cons, List.nodup_cons] at hnd
    obtain ⟨hna, hnd2⟩ := hnd
    cases h : f a with
    | none => simpa [List.filterMap_cons, h] using ih hnd2
    | some b =>
      have ht : t.filterMap f = [] := by
        rw [List.filterMap_eq_nil_iff]
        intro x hx
        cases hfx : f x with
        | none => rfl
        | some y =>
          exfalso
          have hax : sectionKey a = sectionKey x := by
            rw [hf a (by simp [h]), hf x (by simp [hfx])]
          exact hna (hax ▸ List.mem_map_of_mem sectionKey hx)
      simp [List.filterMap_cons, h, ht]

/-- Permuted lists that agree on length at most one are equal. -/
theorem perm_eq_of_length_le_one {α : Type} {l1 l2 : List α}
    (hp : l1.Perm l2) (hl : l1.length ≤ 1) : l1 = l2 := by
  cases l1 with
  | nil => exact (hp.nil_eq)
  | cons x xs =>
    cases xs with
    | nil => exact List.singleton_perm.mp hp
    | cons y ys => simp at hl

/-- By-name section lookup is invariant under reordering of a document
with no duplicate keys. -/
theorem lastVal_perm {α : Type} (f : RawSection → Option α) (key : String)
    (hf : ∀ s, (f s).isSome → sectionKey s = key)
    (d1 d2 : List RawSection) (hperm : d1.Perm d2)
    (hnd : (d1.map sectionKey).Nodup) :
    lastVal f d1 = lastVal f d2 := by
  have hp : d1.reverse.Perm d2.reverse :=
    (List.reverse_perm d1).trans (hperm.trans (List.reverse_perm d2).symm)
  have hlen : (d1.reverse.filterMap f).length ≤ 1 := by
    apply filterMap_key_length_le_one f key hf
    rw [List.map_reverse]
    exact List.nodup_reverse.mpr hnd
  have heq : d1.reverse.filterMap f = d2.reverse.filterMap f :=
    perm_eq_of_length_le_one (hp.filterMap f) hlen
  unfold lastVal
  rw [findSome?_eq_head?_filterMap, findSome?_eq_head?_filterMap, heq]

/-- Parsing the configuration document is invariant under reordering of
its sections when keys are not duplicated. -/
theorem parseConfig_perm (d1 d2 : List RawSection) (hperm : d1.Perm d2)
    (hnd : (d1.map sectionKey).Nodup) :
    parseConfig d1 = parseConfig d2 := by
  simp only [parseConfig, SetupConfig.mk.injEq]
  refine ⟨?_, ?_, ?_, ?_, ?_, ?_⟩
  · exact lastVal_perm _ "sessionSettings"
      (by intro s; cases s <;> simp [sectionKey]) d1 d2 hperm hnd
  · exact lastVal_perm _ "sharingSettings"
      (by intro s; cases s <;> simp [sectionKey]) d1 d2 hperm hnd
  · exact lastVal_perm _ "einsteinActivityCapture"
      (by intro s; cases s <;> simp [sectionKey]) d1 d2 hperm hnd
  · exact lastVal_perm _ "omniChannel"
      (by intro s; cases s <;> simp [sectionKey]) d1 d2 hperm hnd
  · exact lastVal_perm _ "flows"
      (by intro s; cases s <;> simp [sectionKey]) d1 d2 hperm hnd
  · exact lastVal_perm _ "orgWideEmails"
      (by intro s; cases s <;> simp [sectionKey]) d1 d2 hperm hnd

/-- The dispatch order of any batch is sorted by category rank. -/
theorem opsOf_category_sorted (c : SetupConfig) :
    (opsOf c).Pairwise (fun a b => catRank (catOf a) ≤ catRank (catOf b)) := by
  unfold opsOf
  simp [List.pairwise_append, List.pairwise_map, List.mem_map, catOf, catRank,
    List.pairwise_of_forall (fun _ _ => trivial)]
  aesop

/-- Filtering the dispatch order by a list-valued category recovers that
category's section list in document order. -/
theorem opsOf_filter_segments (c : SetupConfig) :
    (opsOf c).filter (fun op => catOf op == OpCat.sharing) =
      (c.sharingSettings.getD []).map Op.sharing ∧
    (opsOf c).filter (fun op => catOf op == OpCat.flow) =
      (c.flows.getD []).map Op.flow ∧
    (opsOf c).filter (fun op => catOf op == OpCat.owe) =
      (c.orgWideEmails.getD []).map Op.owe := by
  unfold opsOf
  refine ⟨?_, ?_, ?_⟩ <;>
    simp [List.filter_append, List.filter_map, Function.comp_def, catOf,
      Bool.beq_eq_decide_eq, List.filter_eq_self, List.filter_eq_nil_iff]

/-- C3: for every batch document, regardless of the order of its
sections, operations execute in the fixed category order sessionSettings,
sharingSettings (document order), einsteinActivityCapture, omniChannel,
flows (document order), orgWideEmails (document order): parsing is
invariant under section reordering, the dispatch order is sorted by
category rank (absent categories contribute nothing and do not affect the
relative order of present ones), and within each list category the
document order is preserved. -/
theorem C3_fixed_category_order (d1 d2 : List RawSection)
    (hperm : d1.Perm d2) (hnd : (d1.map sectionKey).Nodup) :
    parseConfig d1 = parseConfig d2 ∧
    (∀ c : SetupConfig,
      (opsOf c).Pairwise (fun a b => catRank (catOf a) ≤ catRank (catOf b))) ∧
    (∀ c : SetupConfig,
      (opsOf c).filter (fun op => catOf op == OpCat.sharing) =
        (c.sharingSettings.getD []).map Op.sharing ∧
      (opsOf c).filter (fun op => catOf op == OpCat.flow) =
        (c.flows.getD []).map Op.flow ∧
      (opsOf c).filter (fun op => catOf op == OpCat.owe) =
        (c.orgWideEmails.getD []).map Op.owe) :=
  ⟨parseConfig_perm d1 d2 hperm hnd, opsOf_category_sorted, opsOf_filter_segments⟩

/-- Witness for C3 at a concrete document carrying flows, sharing and
session sections in reversed layout. -/
theorem C3_fixed_category_order_witness :
    parseConfig docA = parseConfig docB ∧
    (∀ c : SetupConfig,
      (opsOf c).Pairwise (fun a b => catRank (catOf a) ≤ catRank (catOf b))) ∧
    (∀ c : SetupConfig,
      (opsOf c).filter (fun op => catOf op == OpCat.sharing) =
        (c.sharingSettings.getD []).map Op.sharing ∧
      (opsOf c).filter (fun op => catOf op == OpCat.flow) =
        (c.flows.getD []).map Op.flow ∧
      (opsOf c).filter (fun op => catOf op == OpCat.owe) =
        (c.orgWideEmails.getD []).map Op.owe) :=
  C3_fixed_category_order docA docB (by decide) (by decide)

/-- The batch loop adds exactly one entry, applied or failed, per
attempted operation. -/
theorem runOps_counts (cont : Bool) (env : OpEnv) (ops : List Op) :
    ∀ (i : Nat) (st : BatchState),
    ((runOps cont env ops i st).1.applied.length +
        (runOps cont env ops i st).1.failed.length) + st.attempted.length =
      (st.applied.length + st.failed.length) +
        (runOps cont env ops i st).1.attempted.length := by
  induction ops with
  | nil => intro i st; simp [runOps]
  | cons op rest ih =>
    intro i st
    cases h : env i with
    | none =>
      have hstep : runOps cont env (op :: rest) i st =
          runOps cont env rest (i + 1)
            { applied := st.applied ++ [appliedLabel op]
              failed := st.failed
              attempted := st.attempted ++ [op] } := by
        simp [runOps, h]
      rw [hstep]
      have h2 := ih (i + 1)
        { applied := st.applied ++ [appliedLabel op]
          failed := st.failed
          attempted := st.attempted ++ [op] }
      simp at h2 ⊢
      omega
    | some m =>
      cases cont with
      | true =>
        have hstep : runOps true env (op :: rest) i st =
            runOps true env rest (i + 1)
              { applied := st.applied
                failed := st.failed ++ [failedLabel op m]
                attempted := st.attempted ++ [op] } := by
          simp [runOps, h]
        rw [hstep]
        have h2 := ih (i + 1)
          { applied := st.applied
            failed := st.failed ++ [failedLabel op m]
            attempted := st.attempted ++ [op] }
        simp at h2 ⊢
        omega
      | false =>
        simp [runOps, h]
        omega

/-- A finally block can only return a value that its try block produced. -/
theorem mergeFinally_ok (p : Except String ApplySetupResult)
    (d : DisconnectResult) (res : ApplySetupResult)
    (h : mergeFinally p d = .ok res) : p = .ok res := by
  unfold mergeFinally at h
  cases hd : d.err with
  | none => rwa [hd] at h
  | some e => rw [hd] at h; simp at h

/-- C4: for every completed batch run, the returned result has
success = true iff its failed list is empty; each attempted operation
contributes exactly one entry, so applied plus failed counts equal the
attempted count, and the returned lists are exactly the accumulated ones. -/
theorem C4_success_iff_no_failures (cfg : SetupConfig) (cont : Bool)
    (env : RunEnv) (res : ApplySetupResult)
    (hres : (run cfg cont env).result = Except.ok res) :
    (res.success = true ↔ res.failed = []) ∧
    res.applied.length + res.failed.length =
      (run cfg cont env).attempted.length ∧
    res.applied = (run cfg cont env).applied ∧
    res.failed = (run cfg cont env).failed := by
  unfold run at hres ⊢
  cases hc : connect env.conn none with
  | mk br out =>
    simp only [hc] at hres ⊢
    cases out with
    | error msg =>
      dsimp only at hres
      have := mergeFinally_ok _ _ _ hres
      simp at this
    | ok u =>
      dsimp only at hres ⊢
      cases hr : runOps cont env.opErr (opsOf cfg) 0 ⟨[], [], []⟩ with
      | mk st thrown =>
        simp only [hr] at hres ⊢
        cases thrown with
        | some m =>
          have := mergeFinally_ok _ _ _ hres
          simp at this
        | none =>
          have hp := mergeFinally_ok _ _ _ hres
          dsimp only at hp
          injection hp with hp
          subst hp
          refine ⟨?_, ?_, rfl, rfl⟩
          · simp [List.length_eq_zero]
          · have hcnt := runOps_counts cont env.opErr (opsOf cfg) 0 ⟨[], [], []⟩
            rw [hr] at hcnt
            simpa using hcnt

/-- Witness for C4 at the sample batch run in continue mode with flow A
failing: two applied, one failed, success = false. -/
theorem C4_success_iff_no_failures_witness :
    (({ success := false
        message := "Applied 2 settings, 1 failed"
        applied := ["Session Settings", "Flow: B"]
        failed := ["Flow A: boom"] } : ApplySetupResult).success = true ↔
      ({ success := false
         message := "Applied 2 settings, 1 failed"
         applied := ["Session Settings", "Flow: B"]
         failed := ["Flow A: boom"] } : ApplySetupResult).failed = []) ∧
    (({ success := false
        message := "Applied 2 settings, 1 failed"
        applied := ["Session Settings", "Flow: B"]
        failed := ["Flow A: boom"] } : ApplySetupResult).applied.length +
      ({ success := false
         message := "Applied 2 settings, 1 failed"
         applied := ["Session Settings", "Flow: B"]
         failed := ["Flow A: boom"] } : ApplySetupResult).failed.length =
      (run sampleCfg true (envFailAt 1 "boom")).attempted.length) ∧
    ({ success := false
       message := "Applied 2 settings, 1 failed"
       applied := ["Session Settings", "Flow: B"]
       failed := ["Flow A: boom"] } : ApplySetupResult).applied =
      (run sampleCfg true (envFailAt 1 "boom")).applied ∧
    ({ success := false
       message := "Applied 2 settings, 1 failed"
       applied := ["Session Settings", "Flow: B"]
       failed := ["Flow A: boom"] } : ApplySetupResult).failed =
      (run sampleCfg true (envFailAt 1 "boom")).failed :=
  C4_success_iff_no_failures sampleCfg true (envFailAt 1 "boom")
    { success := false
      message := "Applied 2 settings, 1 failed"
      applied := ["Session Settings", "Flow: B"]
      failed := ["Flow A: boom"] } rfl

/-- C5 counterexample: the claim that a failure of disconnect to close
the browser is never propagated and never overrides the run's outcome is
false on the code. At a batch whose every operation succeeds, the same
run returns success when close succeeds, but when close() throws the
close error becomes the run's propagated result, replacing the success
outcome: BrowserManager.disconnect has no try/catch and the finally block
of SetupApply.run re-raises whatever disconnect throws. -/
theorem C5_counterexample :
    (run sampleCfg true envAllOk).result =
      Except.ok { success := true
                  message := "Applied 3 settings, 0 failed"
                  applied := ["Session Settings", "Flow: A", "Flow: B"]
                  failed := [] } ∧
    (run sampleCfg true envCloseFail).failed = [] ∧
    (run sampleCfg true envCloseFail).result =
      Except.error "Protocol error: Connection closed." := by
  refine ⟨rfl, rfl, rfl⟩

/-- C5 amended: whenever the browser was launched (credentials were
usable) and browser.close() fails, the close error propagates out of the
finally block to the caller and replaces the run's already-determined
outcome, whatever it was. -/
theorem C5_close_error_propagates (cfg : SetupConfig) (cont : Bool)
    (env : RunEnv) (e : String)
    (hurl : jsTruthy env.conn.instanceUrl = true)
    (htok : jsTruthy env.conn.accessToken = true)
    (hclose : env.closeErr = some e) :
    (run cfg cont env).result = Except.error e := by
  have hbr : (connect env.conn none).browser = some () := by
    unfold connect
    rw [hurl, htok]
    simp only [Bool.not_true, Bool.or_self, Bool.false_eq_true, if_false]
    split <;> rfl
  unfold run
  cases hc : connect env.conn none with
  | mk br out =>
    rw [hc] at hbr
    dsimp only at hbr
    subst hbr
    cases out with
    | error msg => simp [hclose, disconnectFn, mergeFinally]
    | ok u =>
      cases hr : runOps cont env.opErr (opsOf cfg) 0 ⟨[], [], []⟩ with
      | mk st thrown =>
        cases thrown <;> simp [hr, hclose, disconnectFn, mergeFinally]

/-- Witness for the amended C5 at the sample batch with a failing
browser close. -/
theorem C5_close_error_propagates_witness :
    (run sampleCfg true envCloseFail).result =
      Except.error "Protocol error: Connection closed." :=
  C5_close_error_propagates sampleCfg true envCloseFail
    "Protocol error: Connection closed." rfl rfl rfl

/-- C6: disconnect is invoked exactly once on every exit path of a run —
normal completion, a propagated abort-mode error, or a completed
continue-mode run with failures — and invoking disconnect with no
browser (never opened, or already closed by a previous disconnect) is a
no-op that performs no close call and raises nothing. -/
theorem C6_disconnect_once_idempotent :
    (∀ (cfg : SetupConfig) (cont : Bool) (env : RunEnv),
      (run cfg cont env).disconnectCalls = 1) ∧
    (∀ ce : Option String,
      disconnectFn ce none =
        { browser := none, closeCalled := false, err := none }) ∧
    (∀ (ce : Option String) (br : Option Unit),
      disconnectFn ce (disconnectFn none br).browser =
        { browser := none, closeCalled := false, err := none }) := by
  refine ⟨?_, ?_, ?_⟩
  · intro cfg cont env
    unfold run
    cases connect env.conn none with
    | mk br out =>
      cases out with
      | error msg => rfl
      | ok u =>
        cases runOps cont env.opErr (opsOf cfg) 0 ⟨[], [], []⟩ with
        | mk st thrown => cases thrown <;> rfl
  · intro ce; rfl
  · intro ce br; cases br <;> rfl

/-- C7: setCheckbox reads the current checked state and clicks only when
it differs from the desired value: one call performs `if c = d then 0
else 1` clicks and leaves the control in the desired state, so a second
call in succession with the same desired value performs zero clicks and
two successive calls with the same desired value perform at most one
underlying toggle interaction in total. -/
theorem C7_setCheckbox_idempotent (c d : Bool) :
    setCheckbox (some c) d =
      .ok { checked := d, clicks := if c = d then 0 else 1 } ∧
    setCheckbox (some d) d = .ok { checked := d, clicks := 0 } ∧
    (if c = d then 0 else 1) + 0 ≤ 1 := by
  cases c <;> cases d <;> exact ⟨rfl, rfl, by decide⟩

/-- hasSubstr always finds the empty needle. -/
theorem hasSubstr_nil (hay : List Char) : hasSubstr hay [] = true := by
  cases hay <;> simp [hasSubstr, List.isPrefixOf]

/-- C8: waitForToast with no expected substring accepts any non-empty
toast text and returns it; when an expected substring is supplied and the
actual toast text does not contain it, waitForToast fails with an error
carrying the actual and expected text. -/
theorem C8_waitForToast :
    (∀ m : String, m ≠ "" → waitForToast (some m) none = .ok m) ∧
    (∀ m e : String, hasSubstr m.toList e.toList = false →
      waitForToast (some m) (some e) =
        .error ("Expected toast \"" ++ e ++ "\" but got \"" ++ m ++ "\"")) := by
  constructor
  · intro m _
    rfl
  · intro m e h
    have he : e ≠ "" := by
      intro h0
      subst h0
      rw [show ("" : String).toList = [] from rfl, hasSubstr_nil] at h
      cases h
    have hbe : (e != "") = true := by simpa using he
    unfold waitForToast
    dsimp only
    rw [h, hbe]
    rfl

/-- Witness for C8: a toast without expectation is returned as-is; a
toast not containing the expected substring raises. -/
theorem C8_waitForToast_witness :
    waitForToast (some "Settings saved") none = .ok "Settings saved" ∧
    waitForToast (some "Settings saved") (some "Error") =
      .error ("Expected toast \"" ++ "Error" ++ "\" but got \""
        ++ "Settings saved" ++ "\"") :=
  ⟨C8_waitForToast.1 "Settings saved" (by decide),
   C8_waitForToast.2 "Settings saved" "Error" (by decide)⟩

/-- C9: connect fails when instanceUrl or accessToken is falsy, and — the
credentials being usable — when neither post-login DOM marker is present;
a run whose connect fails attempts no operation, applies nothing and
propagates an error. -/
theorem C9_connect_failures :
    (∀ (e : ConnectEnv) (b : Option Unit),
      (jsTruthy e.instanceUrl = false ∨ jsTruthy e.accessToken = false) →
      (connect e b).outcome =
        .error "Unable to get Salesforce session. Please authenticate first.") ∧
    (∀ (e : ConnectEnv) (b : Option Unit),
      jsTruthy e.instanceUrl = true → jsTruthy e.accessToken = true →
      e.sldsGlobalHeaderPresent = false → e.phHeaderLogoImagePresent = false →
      (connect e b).outcome = .error "Failed to authenticate to Salesforce") ∧
    (∀ (cfg : SetupConfig) (cont : Bool) (env : RunEnv) (m : String),
      (connect env.conn none).outcome = .error m →
      (run cfg cont env).applied = [] ∧ (run cfg cont env).attempted = [] ∧
      ∃ err, (run cfg cont env).result = Except.error err) := by
  refine ⟨?_, ?_, ?_⟩
  · intro e b h
    unfold connect
    rcases h with h | h <;> simp [h]
  · intro e b h1 h2 h3 h4
    unfold connect
    simp [h1, h2, h3, h4]
  · intro cfg cont env m hconn
    unfold run
    cases hc : connect env.conn none with
    | mk br out =>
      rw [hc] at hconn
      dsimp only at hconn
      subst hconn
      refine ⟨rfl, rfl, ?_⟩
      show ∃ err, mergeFinally (Except.error ("Configuration failed: " ++ m))
        (disconnectFn env.closeErr br) = Except.error err
      unfold mergeFinally
      cases hd : (disconnectFn env.closeErr br).err with
      | none => exact ⟨_, rfl⟩
      | some e2 => exact ⟨e2, rfl⟩

/-- Witness for C9: a missing instance URL, an absent login marker, and a
run aborted by the failed connect. -/
theorem C9_connect_failures_witness :
    (connect noUrlConn none).outcome =
      .error "Unable to get Salesforce session. Please authenticate first." ∧
    (connect noMarkerConn none).outcome =
      .error "Failed to authenticate to Salesforce" ∧
    (run sampleCfg false envNoUrl).applied = [] ∧
    (run sampleCfg false envNoUrl).attempted = [] ∧
    ∃ err, (run sampleCfg false envNoUrl).result = Except.error err :=
  ⟨C9_connect_failures.1 noUrlConn none (Or.inl rfl),
   C9_connect_failures.2.1 noMarkerConn none rfl rfl rfl rfl,
   (C9_connect_failures.2.2 sampleCfg false envNoUrl
      "Unable to get Salesforce session. Please authenticate first." rfl).1,
   (C9_connect_failures.2.2 sampleCfg false envNoUrl
      "Unable to get Salesforce session. Please authenticate first." rfl).2.1,
   (C9_connect_failures.2.2 sampleCfg false envNoUrl
      "Unable to get Salesforce session. Please authenticate first." rfl).2.2⟩

/-- C10: when options.enabled is false, configureEinsteinActivityCapture
and configureOmniChannel set only the main enable checkbox before Save —
the kind-specific sub-option checkboxes (emailCapture/eventCapture,
skillBased/externalRouting) are never touched even when the sub-options
are explicitly provided. -/
theorem C10_disabled_main_toggle_only (eo : EacOptions) (oo : OmniOptions)
    (he : eo.enabled = false) (ho : oo.enabled = false) :
    configureEinsteinActivityCapture eo =
      [UIAction.navigateToSetup "ActivitySyncEngineSettings",
       UIAction.getSetupIframe,
       UIAction.setCheckboxSel "input[type=\"checkbox\"][id*=\"activityCapture\"]" false,
       UIAction.clickButton "Save", UIAction.waitForToastAction] ∧
    configureOmniChannel oo =
      [UIAction.navigateToSetup "OmniChannelSettings",
       UIAction.getSetupIframe,
       UIAction.setCheckboxSel "input[type=\"checkbox\"][id*=\"enableOmni\"]" false,
       UIAction.clickButton "Save", UIAction.waitForToastAction] ∧
    (∀ a ∈ configureEinsteinActivityCapture eo,
      checkboxSelectorOf a ≠ some "input[type=\"checkbox\"][id*=\"emailCapture\"]" ∧
      checkboxSelectorOf a ≠ some "input[type=\"checkbox\"][id*=\"eventCapture\"]") ∧
    (∀ a ∈ configureOmniChannel oo,
      checkboxSelectorOf a ≠ some "input[type=\"checkbox\"][id*=\"skillBased\"]" ∧
      checkboxSelectorOf a ≠ some "input[type=\"checkbox\"][id*=\"externalRouting\"]") := by
  refine ⟨?_, ?_, ?_, ?_⟩
  · simp [configureEinsteinActivityCapture, he]
  · simp [configureOmniChannel, ho]
  · intro a ha
    simp [configureEinsteinActivityCapture, he] at ha
    rcases ha with rfl | rfl | rfl | rfl | rfl <;>
      simp [checkboxSelectorOf]
  · intro a ha
    simp [configureOmniChannel, ho] at ha
    rcases ha with rfl | rfl | rfl | rfl | rfl <;>
      simp [checkboxSelectorOf]

/-- Witness for C10 at disabled options that explicitly provide every
sub-option. -/
theorem C10_disabled_main_toggle_only_witness :
    configureEinsteinActivityCapture
        { enabled := false, captureEmails := some true, captureEvents := some true } =
      [UIAction.navigateToSetup "ActivitySyncEngineSettings",
       UIAction.getSetupIframe,
       UIAction.setCheckboxSel "input[type=\"checkbox\"][id*=\"activityCapture\"]" false,
       UIAction.clickButton "Save", UIAction.waitForToastAction] ∧
    configureOmniChannel
        { enabled := false, enableSkillBasedRouting := some true
          enableExternalRouting := some true } =
      [UIAction.navigateToSetup "OmniChannelSettings",
       UIAction.getSetupIframe,
       UIAction.setCheckboxSel "input[type=\"checkbox\"][id*=\"enableOmni\"]" false,
       UIAction.clickButton "Save", UIAction.waitForToastAction] ∧
    (∀ a ∈ configureEinsteinActivityCapture
        { enabled := false, captureEmails := some true, captureEvents := some true },
      checkboxSelectorOf a ≠ some "input[type=\"checkbox\"][id*=\"emailCapture\"]" ∧
      checkboxSelectorOf a ≠ some "input[type=\"checkbox\"][id*=\"eventCapture\"]") ∧
    (∀ a ∈ configureOmniChannel
        { enabled := false, enableSkillBasedRouting := some true
          enableExternalRouting := some true },
      checkboxSelectorOf a ≠ some "input[type=\"checkbox\"][id*=\"skillBased\"]" ∧
      checkboxSelectorOf a ≠ some "input[type=\"checkbox\"][id*=\"externalRouting\"]") :=
  C10_disabled_main_toggle_only
    { enabled := false, captureEmails := some true, captureEvents := some true }
    { enabled := false, enableSkillBasedRouting := some true
      enableExternalRouting := some true } rfl rfl

end SfUiAuto
